import Mathlib

/-! Verification development for the humidifier fill simulation
(`sim_humidificador.py`).

The integrator (`simular_relleno` and its per-step body) is embedded
generically over a `LinearOrderedField` so that the exact-arithmetic
behaviour of the source's floating-point loop can be proved once and
instantiated both at `ℚ` (for concrete, decidable evaluations) and at
`ℝ` (where the Magnus saturation model lives).  The source computes
`rho_sat = rho_saturacion(T)` at the top of `simular_relleno`; the
generic embedding takes that saturation density as a parameter, and the
real-valued wrapper `simular_relleno_T` reinstates the call so that the
full source function is recovered over `ℝ`.
-/

/-- Mutable loop state of `simular_relleno`: current density `rho_v`,
the two recorded series `tiempos`/`rhos`, and the two accumulators
`masa_condensada`/`masa_inyectada`.  The extra field `masa_clamp` is
instrumentation not present in the source: it records only the mass
reclassified as condensed by the saturation clamp (the `exceso` added
at line 138 of the source), so that clamp-induced condensation can be
separated from the per-step condensation loss.  `masa_condensada`
itself is computed exactly as in the source. -/
structure SimState (α : Type*) where
  rho_v : α
  tiempos : List α
  rhos : List α
  masa_condensada : α
  masa_inyectada : α
  masa_clamp : α
deriving DecidableEq

/-- The tuple returned by `simular_relleno`:
`(tiempos, rhos, t_obj, masa_inyectada, masa_condensada, rho_sat)`,
plus the `masa_clamp` instrumentation carried over from `SimState`. -/
structure SimResult (α : Type*) where
  tiempos : List α
  rhos : List α
  t_obj : Option α
  masa_inyectada : α
  masa_condensada : α
  rho_sat : α
  masa_clamp : α
deriving DecidableEq

/-- Source line 122: `perdida_vent = Q * (rho_v - rho_out) * dt` with
`Q = ACH * V / 60.0` (line 119). -/
def perdida_vent {α : Type*} [LinearOrderedField α]
    (V ACH dt rho_out rho_v : α) : α :=
  (ACH * V / 60) * (rho_v - rho_out) * dt

/-- Source lines 125-129: the condensation loss of one step.  In mode
`'fijo'` it is `min(k_cond*dt, max(0.0, masa_actual))` with
`masa_actual = rho_v * V`; in every other mode the `else` branch runs:
`max(0.0, rho_v - rho_sat) * V * k_cond * dt`. -/
def perdida_cond {α : Type*} [LinearOrderedField α]
    (V k_cond dt rho_sat : α) (modo_cond : String) (rho_v : α) : α :=
  if modo_cond = "fijo" then min (k_cond * dt) (max 0 (rho_v * V))
  else max 0 (rho_v - rho_sat) * V * k_cond * dt

/-- Source line 132: `nueva_masa = masa_actual + masa_in - perdida_vent
- perdida_cond`, with `masa_actual = rho_v * V` (line 116) and
`masa_in = dotm * dt` (line 113). -/
def nueva_masa {α : Type*} [LinearOrderedField α]
    (V dotm ACH k_cond dt rho_sat rho_out : α) (modo_cond : String)
    (rho_v : α) : α :=
  rho_v * V + dotm * dt - perdida_vent V ACH dt rho_out rho_v
    - perdida_cond V k_cond dt rho_sat modo_cond rho_v

/-- Source line 133: `nuevo_rho = max(0.0, nueva_masa / V)` — the
pre-clamp density of one step. -/
def nuevo_rho {α : Type*} [LinearOrderedField α]
    (V dotm ACH k_cond dt rho_sat rho_out : α) (modo_cond : String)
    (rho_v : α) : α :=
  max 0 (nueva_masa V dotm ACH k_cond dt rho_sat rho_out modo_cond rho_v / V)

/-- One iteration of the `for` loop of `simular_relleno` (source lines
112-146), up to but not including the arrival test: compute the new
density, apply the saturation clamp (lines 136-139, adding the excess
to `masa_condensada` and to the `masa_clamp` instrumentation),
accumulate `masa_inyectada += masa_in` and
`masa_condensada += perdida_cond` (lines 141-142), and append `t` and
the post-clamp density to the series (lines 145-146). -/
def paso {α : Type*} [LinearOrderedField α]
    (V dotm ACH k_cond dt rho_sat rho_out : α) (modo_cond : String)
    (t : α) (s : SimState α) : SimState α :=
  if rho_sat < nuevo_rho V dotm ACH k_cond dt rho_sat rho_out modo_cond s.rho_v then
    { rho_v := rho_sat
      tiempos := s.tiempos ++ [t]
      rhos := s.rhos ++ [rho_sat]
      masa_condensada := s.masa_condensada
        + (nuevo_rho V dotm ACH k_cond dt rho_sat rho_out modo_cond s.rho_v - rho_sat) * V
        + perdida_cond V k_cond dt rho_sat modo_cond s.rho_v
      masa_inyectada := s.masa_inyectada + dotm * dt
      masa_clamp := s.masa_clamp
        + (nuevo_rho V dotm ACH k_cond dt rho_sat rho_out modo_cond s.rho_v - rho_sat) * V }
  else
    { rho_v := nuevo_rho V dotm ACH k_cond dt rho_sat rho_out modo_cond s.rho_v
      tiempos := s.tiempos ++ [t]
      rhos := s.rhos ++ [nuevo_rho V dotm ACH k_cond dt rho_sat rho_out modo_cond s.rho_v]
      masa_condensada := s.masa_condensada
        + perdida_cond V k_cond dt rho_sat modo_cond s.rho_v
      masa_inyectada := s.masa_inyectada + dotm * dt
      masa_clamp := s.masa_clamp }

/-- The `for i in range(pasos_max)` loop of `simular_relleno` (source
lines 109-150): run `paso` with `t = (i+1)*dt`, then the arrival test
(line 149) `if rho_v >= rho_objetivo: return ..., t, ...`; the second
component of the result is `some t` on early arrival and `none` when
the step budget is exhausted (line 152). -/
def bucle {α : Type*} [LinearOrderedField α]
    (V dotm ACH k_cond dt rho_sat rho_out : α) (modo_cond : String)
    (rho_objetivo : α) : ℕ → ℕ → SimState α → SimState α × Option α
  | 0, _, s => (s, none)
  | n + 1, i, s =>
    let t : α := ((i : α) + 1) * dt
    let s1 := paso V dotm ACH k_cond dt rho_sat rho_out modo_cond t s
    if s1.rho_v ≥ rho_objetivo then (s1, some t)
    else bucle V dotm ACH k_cond dt rho_sat rho_out modo_cond rho_objetivo n (i + 1) s1

/-- Source lines 78-152, `simular_relleno`, with the saturation density
`rho_sat` passed as a parameter in place of the temperature `T` (the
source computes `rho_sat = rho_saturacion(T)` at line 96; the wrapper
`simular_relleno_T` restores that call over `ℝ`).  Initialization
mirrors lines 96-107: `rho_v = rho_desde_HR(HR0, T) = (HR0/100)*rho_sat`,
`rho_out = (HR_out/100)*rho_sat`, `rho_objetivo = (HR_objetivo/100)*rho_sat`,
`pasos_max = int(tiempo_max / dt)` (for the positive quotients of any
run that terminates normally, Python's truncation is the floor), and the
series start as `[0.0]` and `[rho_v]`.  (Line 99 also computes
`a = ACH/60.0`, which the loop never uses.) -/
def simular_relleno {α : Type*} [LinearOrderedField α] [FloorRing α]
    (V dotm rho_sat HR0 HR_out ACH k_cond : α) (modo_cond : String)
    (dt HR_objetivo tiempo_max : α) : SimResult α :=
  let rho_v : α := (HR0 / 100) * rho_sat
  let rho_out : α := (HR_out / 100) * rho_sat
  let rho_objetivo : α := (HR_objetivo / 100) * rho_sat
  let pasos_max : ℕ := (⌊tiempo_max / dt⌋).toNat
  let s0 : SimState α :=
    { rho_v := rho_v, tiempos := [0], rhos := [rho_v]
      masa_condensada := 0, masa_inyectada := 0, masa_clamp := 0 }
  let r := bucle V dotm ACH k_cond dt rho_sat rho_out modo_cond rho_objetivo pasos_max 0 s0
  { tiempos := r.1.tiempos
    rhos := r.1.rhos
    t_obj := r.2
    masa_inyectada := r.1.masa_inyectada
    masa_condensada := r.1.masa_condensada
    rho_sat := rho_sat
    masa_clamp := r.1.masa_clamp }

/-- Source lines 42-47, `presion_saturacion`: Magnus saturation vapor
pressure in hPa, `6.112 * exp(17.62*T / (243.12 + T))`. -/
noncomputable def presion_saturacion (T_c : ℝ) : ℝ :=
  6.112 * Real.exp ((17.62 * T_c) / (243.12 + T_c))

/-- Source lines 53-61, `rho_saturacion`: saturation vapor density in
g/m³, `216.7 * e_s / T_k` with `T_k = T_c + 273.15`. -/
noncomputable def rho_saturacion (T_c : ℝ) : ℝ :=
  216.7 * presion_saturacion T_c / (T_c + 273.15)

/-- Source lines 67-72, `rho_desde_HR`: absolute vapor density from
relative humidity, `(HR/100) * rho_saturacion(T)`. -/
noncomputable def rho_desde_HR (HR T_c : ℝ) : ℝ :=
  (HR / 100) * rho_saturacion T_c

/-- Specialization of `simular_relleno` over `ℝ` with the source's
signature: the saturation density is computed from the temperature via
the Magnus model, exactly as at line 96 of the source. -/
noncomputable def simular_relleno_T
    (V dotm T HR0 HR_out ACH k_cond : ℝ) (modo_cond : String)
    (dt HR_objetivo tiempo_max : ℝ) : SimResult ℝ :=
  simular_relleno V dotm (rho_saturacion T) HR0 HR_out ACH k_cond modo_cond
    dt HR_objetivo tiempo_max

/-- The documented alternative mode string is not the string `'fijo'`
that line 125 of the source compares against. -/
lemma proporcional_ne_fijo : ("proporcional" : String) ≠ "fijo" := by decide

/-- An element of a list with one more initial segment dropped is an
element of the list with one fewer dropped. -/
lemma mem_drop_succ {β : Type*} {l : List β} {m : ℕ} {x : β}
    (h : x ∈ List.drop (m + 1) l) : x ∈ List.drop m l := by
  have h2 : List.drop (m + 1) l = List.drop 1 (List.drop m l) := by
    rw [List.drop_drop, Nat.add_comm]
  rw [h2] at h
  exact List.mem_of_mem_drop h

/-- An element of `l1` survives `dropLast` once at least one further
element has been appended after it. -/
lemma mem_dropLast_append {β : Type*} {x : β} {l1 : List β} (a : β) (l2 : List β)
    (hx : x ∈ l1) : x ∈ (l1 ++ [a] ++ l2).dropLast := by
  cases l2 with
  | nil =>
    rw [List.append_nil, List.dropLast_concat]
    exact hx
  | cons b tl =>
    rw [List.dropLast_append_of_ne_nil _ (by simp)]
    exact List.mem_append_left _ (List.mem_append_left _ hx)

section Integrador

variable {α : Type*} [LinearOrderedField α]
variable (V dotm ACH k_cond dt rho_sat rho_out : α) (modo : String)
variable (rho_objetivo t : α) (s : SimState α)

/-- The density recorded by one step is the pre-clamp density capped at
the saturation density. -/
lemma paso_rho_v :
    (paso V dotm ACH k_cond dt rho_sat rho_out modo t s).rho_v
      = min rho_sat (nuevo_rho V dotm ACH k_cond dt rho_sat rho_out modo s.rho_v) := by
  unfold paso
  split_ifs with h
  · exact (min_eq_left h.le).symm
  · exact (min_eq_right (not_lt.1 h)).symm

/-- One step appends exactly its recorded density to the density series. -/
lemma paso_rhos :
    (paso V dotm ACH k_cond dt rho_sat rho_out modo t s).rhos
      = s.rhos ++ [(paso V dotm ACH k_cond dt rho_sat rho_out modo t s).rho_v] := by
  unfold paso
  split_ifs <;> rfl

/-- One step appends exactly its time stamp to the time series. -/
lemma paso_tiempos :
    (paso V dotm ACH k_cond dt rho_sat rho_out modo t s).tiempos
      = s.tiempos ++ [t] := by
  unfold paso
  split_ifs <;> rfl

/-- One step accumulates `masa_in = dotm * dt` into the injected-mass total. -/
lemma paso_masa_inyectada :
    (paso V dotm ACH k_cond dt rho_sat rho_out modo t s).masa_inyectada
      = s.masa_inyectada + dotm * dt := by
  unfold paso
  split_ifs <;> rfl

/-- For non-negative volume, coefficient and time step, the per-step
condensation loss is non-negative in both modes. -/
lemma perdida_cond_nonneg (hV : 0 ≤ V) (hk : 0 ≤ k_cond) (hdt : 0 ≤ dt)
    (rho_v : α) :
    0 ≤ perdida_cond V k_cond dt rho_sat modo rho_v := by
  unfold perdida_cond
  split_ifs
  · exact le_min (mul_nonneg hk hdt) (le_max_left 0 _)
  · exact mul_nonneg (mul_nonneg (mul_nonneg (le_max_left 0 _) hV) hk) hdt

/-- In any non-`'fijo'` mode, a step that starts strictly below
saturation loses nothing to per-step condensation. -/
lemma perdida_cond_of_lt (hmodo : modo ≠ "fijo") (rho_v : α)
    (h : rho_v < rho_sat) :
    perdida_cond V k_cond dt rho_sat modo rho_v = 0 := by
  unfold perdida_cond
  rw [if_neg hmodo, max_eq_left (sub_nonpos.2 h.le), zero_mul, zero_mul, zero_mul]

/-- One step never decreases the condensed-mass accumulator. -/
lemma paso_masa_condensada_mono (hV : 0 ≤ V) (hk : 0 ≤ k_cond) (hdt : 0 ≤ dt) :
    s.masa_condensada
      ≤ (paso V dotm ACH k_cond dt rho_sat rho_out modo t s).masa_condensada := by
  have hpc := perdida_cond_nonneg V k_cond dt rho_sat modo hV hk hdt s.rho_v
  unfold paso
  split_ifs with h
  · have hcl : 0 ≤ (nuevo_rho V dotm ACH k_cond dt rho_sat rho_out modo s.rho_v - rho_sat) * V :=
      mul_nonneg (sub_nonneg.2 h.le) hV
    show s.masa_condensada ≤ s.masa_condensada + _ + _
    linarith
  · show s.masa_condensada ≤ s.masa_condensada + _
    linarith

/-- The loop only appends to the density series. -/
lemma bucle_rhos_append :
    ∀ (n i : ℕ) (s : SimState α), ∃ l,
      (bucle V dotm ACH k_cond dt rho_sat rho_out modo rho_objetivo n i s).1.rhos
        = s.rhos ++ l := by
  intro n
  induction n with
  | zero => exact fun i s => ⟨[], by simp [bucle]⟩
  | succ n ih =>
    intro i s
    rw [bucle]
    split_ifs with h
    · exact ⟨[(paso V dotm ACH k_cond dt rho_sat rho_out modo (((i : α) + 1) * dt) s).rho_v],
        paso_rhos V dotm ACH k_cond dt rho_sat rho_out modo _ s⟩
    · obtain ⟨l, hl⟩ := ih (i + 1) (paso V dotm ACH k_cond dt rho_sat rho_out modo (((i : α) + 1) * dt) s)
      refine ⟨(paso V dotm ACH k_cond dt rho_sat rho_out modo (((i : α) + 1) * dt) s).rho_v :: l, ?_⟩
      rw [hl, paso_rhos]
      simp

/-- The floor and the saturation clamp keep every density recorded by a
step inside `[0, rho_sat]`, as soon as the saturation density itself is
non-negative. -/
lemma paso_rhos_mem (hsat : 0 ≤ rho_sat)
    (h : ∀ x ∈ s.rhos, 0 ≤ x ∧ x ≤ rho_sat) :
    ∀ x ∈ (paso V dotm ACH k_cond dt rho_sat rho_out modo t s).rhos,
      0 ≤ x ∧ x ≤ rho_sat := by
  rw [paso_rhos]
  intro x hx
  rcases List.mem_append.1 hx with hx | hx
  · exact h x hx
  · rw [List.mem_singleton] at hx
    subst hx
    rw [paso_rho_v]
    exact ⟨le_min hsat (le_max_left 0 _), min_le_left _ _⟩

/-- Every density the loop records stays inside `[0, rho_sat]`. -/
lemma bucle_rhos_mem (hsat : 0 ≤ rho_sat) :
    ∀ (n i : ℕ) (s : SimState α),
      (∀ x ∈ s.rhos, 0 ≤ x ∧ x ≤ rho_sat) →
      ∀ x ∈ (bucle V dotm ACH k_cond dt rho_sat rho_out modo rho_objetivo n i s).1.rhos,
        0 ≤ x ∧ x ≤ rho_sat := by
  intro n
  induction n with
  | zero =>
    intro i s hs
    simpa [bucle] using hs
  | succ n ih =>
    intro i s hs
    rw [bucle]
    split_ifs with h
    · exact paso_rhos_mem V dotm ACH k_cond dt rho_sat rho_out modo _ s hsat hs
    · exact ih (i + 1) _ (paso_rhos_mem V dotm ACH k_cond dt rho_sat rho_out modo _ s hsat hs)

/-- The loop appends at most one sample per unit of fuel. -/
lemma bucle_rhos_length_le :
    ∀ (n i : ℕ) (s : SimState α),
      (bucle V dotm ACH k_cond dt rho_sat rho_out modo rho_objetivo n i s).1.rhos.length
        ≤ s.rhos.length + n := by
  intro n
  induction n with
  | zero => intro i s; simp [bucle]
  | succ n ih =>
    intro i s
    rw [bucle]
    split_ifs with h
    · rw [paso_rhos]
      simp only [List.length_append, List.length_singleton]
      omega
    · calc (bucle V dotm ACH k_cond dt rho_sat rho_out modo rho_objetivo n (i + 1)
            (paso V dotm ACH k_cond dt rho_sat rho_out modo (((i : α) + 1) * dt) s)).1.rhos.length
          ≤ (paso V dotm ACH k_cond dt rho_sat rho_out modo (((i : α) + 1) * dt) s).rhos.length + n :=
            ih (i + 1) _
        _ = s.rhos.length + 1 + n := by rw [paso_rhos]; simp
        _ = s.rhos.length + (n + 1) := by omega

/-- When the loop exhausts its fuel without arriving, it has recorded
exactly one sample and one time stamp per step. -/
lemma bucle_none_length :
    ∀ (n i : ℕ) (s : SimState α),
      (bucle V dotm ACH k_cond dt rho_sat rho_out modo rho_objetivo n i s).2 = none →
      (bucle V dotm ACH k_cond dt rho_sat rho_out modo rho_objetivo n i s).1.rhos.length
          = s.rhos.length + n
        ∧ (bucle V dotm ACH k_cond dt rho_sat rho_out modo rho_objetivo n i s).1.tiempos.length
          = s.tiempos.length + n := by
  intro n
  induction n with
  | zero => intro i s _; simp [bucle]
  | succ n ih =>
    intro i s hnone
    rw [bucle] at hnone ⊢
    by_cases h : (paso V dotm ACH k_cond dt rho_sat rho_out modo (((i : α) + 1) * dt) s).rho_v
        ≥ rho_objetivo
    · rw [if_pos h] at hnone
      exact absurd hnone (by simp)
    · rw [if_neg h] at hnone ⊢
      obtain ⟨h1, h2⟩ := ih (i + 1) _ hnone
      constructor
      · rw [h1, paso_rhos]
        simp only [List.length_append, List.length_singleton]
        omega
      · rw [h2, paso_tiempos]
        simp only [List.length_append, List.length_singleton]
        omega

/-- When the loop exhausts its fuel without arriving, every sample it
appended is strictly below the target density. -/
lemma bucle_none_lt :
    ∀ (n i : ℕ) (s : SimState α),
      (bucle V dotm ACH k_cond dt rho_sat rho_out modo rho_objetivo n i s).2 = none →
      ∀ x ∈ (bucle V dotm ACH k_cond dt rho_sat rho_out modo rho_objetivo n i s).1.rhos.drop
          s.rhos.length,
        x < rho_objetivo := by
  intro n
  induction n with
  | zero =>
    intro i s _
    simp [bucle, List.drop_length]
  | succ n ih =>
    intro i s hnone
    rw [bucle] at hnone ⊢
    by_cases h : (paso V dotm ACH k_cond dt rho_sat rho_out modo (((i : α) + 1) * dt) s).rho_v
        ≥ rho_objetivo
    · rw [if_pos h] at hnone
      exact absurd hnone (by simp)
    · rw [if_neg h] at hnone ⊢
      intro x hx
      obtain ⟨l, hl⟩ := bucle_rhos_append V dotm ACH k_cond dt rho_sat rho_out modo rho_objetivo
        n (i + 1) (paso V dotm ACH k_cond dt rho_sat rho_out modo (((i : α) + 1) * dt) s)
      rw [hl, paso_rhos] at hx
      rw [List.append_assoc, List.drop_left] at hx
      rcases List.mem_append.1 hx with hx | hx
      · rw [List.mem_singleton] at hx
        subst hx
        exact lt_of_not_ge h
      · have := ih (i + 1) _ hnone
        rw [hl] at this
        apply this
        rw [paso_rhos, List.drop_left]
        exact hx

/-- If every sample the loop appended stays strictly below the target
density, the loop cannot have arrived. -/
lemma bucle_lt_none :
    ∀ (n i : ℕ) (s : SimState α),
      (∀ x ∈ (bucle V dotm ACH k_cond dt rho_sat rho_out modo rho_objetivo n i s).1.rhos.drop
          s.rhos.length,
        x < rho_objetivo) →
      (bucle V dotm ACH k_cond dt rho_sat rho_out modo rho_objetivo n i s).2 = none := by
  intro n
  induction n with
  | zero => intro i s _; simp [bucle]
  | succ n ih =>
    intro i s hlt
    rw [bucle] at hlt ⊢
    split_ifs at hlt ⊢ with h
    · exfalso
      have hmem : (paso V dotm ACH k_cond dt rho_sat rho_out modo (((i : α) + 1) * dt) s).rho_v
          ∈ ((paso V dotm ACH k_cond dt rho_sat rho_out modo (((i : α) + 1) * dt) s).rhos).drop
            s.rhos.length := by
        rw [paso_rhos, List.drop_left]
        exact List.mem_singleton.2 rfl
      exact absurd (hlt _ hmem) (not_lt.2 h)
    · apply ih (i + 1)
      intro x hx
      apply hlt
      have h1 : (paso V dotm ACH k_cond dt rho_sat rho_out modo (((i : α) + 1) * dt) s).rhos.length
          = s.rhos.length + 1 := by
        rw [paso_rhos]
        simp only [List.length_append, List.length_singleton]
      rw [h1] at hx
      exact mem_drop_succ hx

/-- The condensed-mass accumulator after one step: the old value, plus
the clamp excess when the clamp fires, plus the per-step condensation
loss. -/
lemma paso_masa_condensada :
    (paso V dotm ACH k_cond dt rho_sat rho_out modo t s).masa_condensada
      = s.masa_condensada
        + (if rho_sat < nuevo_rho V dotm ACH k_cond dt rho_sat rho_out modo s.rho_v
            then (nuevo_rho V dotm ACH k_cond dt rho_sat rho_out modo s.rho_v - rho_sat) * V
            else 0)
        + perdida_cond V k_cond dt rho_sat modo s.rho_v := by
  unfold paso
  split_ifs with h
  · rfl
  · rw [add_zero]

/-- The clamp-only accumulator after one step: the old value plus the
clamp excess when the clamp fires. -/
lemma paso_masa_clamp :
    (paso V dotm ACH k_cond dt rho_sat rho_out modo t s).masa_clamp
      = s.masa_clamp
        + (if rho_sat < nuevo_rho V dotm ACH k_cond dt rho_sat rho_out modo s.rho_v
            then (nuevo_rho V dotm ACH k_cond dt rho_sat rho_out modo s.rho_v - rho_sat) * V
            else 0) := by
  unfold paso
  split_ifs with h
  · rfl
  · rw [add_zero]

/-- A step with no per-step condensation loss moves the condensed-mass
accumulator and the clamp-only accumulator by the same amount. -/
lemma paso_cond_clamp
    (hpc : perdida_cond V k_cond dt rho_sat modo s.rho_v = 0) :
    (paso V dotm ACH k_cond dt rho_sat rho_out modo t s).masa_condensada + s.masa_clamp
      = (paso V dotm ACH k_cond dt rho_sat rho_out modo t s).masa_clamp
        + s.masa_condensada := by
  rw [paso_masa_condensada, paso_masa_clamp, hpc]
  ring

/-- Both mass accumulators are monotone along the loop under the
validity sign conditions. -/
lemma bucle_masas_mono (hV : 0 ≤ V) (hdotm : 0 ≤ dotm) (hk : 0 ≤ k_cond)
    (hdt : 0 ≤ dt) :
    ∀ (n i : ℕ) (s : SimState α),
      s.masa_inyectada
          ≤ (bucle V dotm ACH k_cond dt rho_sat rho_out modo rho_objetivo n i s).1.masa_inyectada
        ∧ s.masa_condensada
          ≤ (bucle V dotm ACH k_cond dt rho_sat rho_out modo rho_objetivo n i s).1.masa_condensada := by
  intro n
  induction n with
  | zero => intro i s; simp [bucle]
  | succ n ih =>
    intro i s
    have hiny : s.masa_inyectada
        ≤ (paso V dotm ACH k_cond dt rho_sat rho_out modo (((i : α) + 1) * dt) s).masa_inyectada := by
      rw [paso_masa_inyectada]
      have := mul_nonneg hdotm hdt
      linarith
    have hcond := paso_masa_condensada_mono V dotm ACH k_cond dt rho_sat rho_out modo
      (((i : α) + 1) * dt) s hV hk hdt
    rw [bucle]
    split_ifs with h
    · exact ⟨hiny, hcond⟩
    · obtain ⟨a, b⟩ := ih (i + 1) (paso V dotm ACH k_cond dt rho_sat rho_out modo (((i : α) + 1) * dt) s)
      exact ⟨hiny.trans a, hcond.trans b⟩

/-- If every density the loop will ever have recorded before its last
sample stays strictly below saturation, then (in a non-`'fijo'` mode)
the condensed-mass accumulator advances exactly with the clamp-only
accumulator over the whole run. -/
lemma bucle_cond_eq_clamp (hmodo : modo ≠ "fijo") :
    ∀ (n i : ℕ) (s : SimState α), s.rho_v ∈ s.rhos →
      (∀ x ∈ (bucle V dotm ACH k_cond dt rho_sat rho_out modo rho_objetivo n i s).1.rhos.dropLast,
        x < rho_sat) →
      (bucle V dotm ACH k_cond dt rho_sat rho_out modo rho_objetivo n i s).1.masa_condensada
          + s.masa_clamp
        = (bucle V dotm ACH k_cond dt rho_sat rho_out modo rho_objetivo n i s).1.masa_clamp
          + s.masa_condensada := by
  intro n
  induction n with
  | zero =>
    intro i s _ _
    simp only [bucle]
    ring
  | succ n ih =>
    intro i s hmem hbelow
    rw [bucle] at hbelow ⊢
    by_cases h : (paso V dotm ACH k_cond dt rho_sat rho_out modo (((i : α) + 1) * dt) s).rho_v
        ≥ rho_objetivo
    · rw [if_pos h] at hbelow ⊢
      have hlt : s.rho_v < rho_sat := by
        apply hbelow
        show s.rho_v
          ∈ (paso V dotm ACH k_cond dt rho_sat rho_out modo (((i : α) + 1) * dt) s).rhos.dropLast
        rw [paso_rhos, List.dropLast_concat]
        exact hmem
      exact paso_cond_clamp V dotm ACH k_cond dt rho_sat rho_out modo _ s
        (perdida_cond_of_lt V k_cond dt rho_sat modo hmodo s.rho_v hlt)
    · rw [if_neg h] at hbelow ⊢
      obtain ⟨l, hl⟩ := bucle_rhos_append V dotm ACH k_cond dt rho_sat rho_out modo rho_objetivo
        n (i + 1) (paso V dotm ACH k_cond dt rho_sat rho_out modo (((i : α) + 1) * dt) s)
      have hlt : s.rho_v < rho_sat := by
        apply hbelow
        rw [hl, paso_rhos]
        exact mem_dropLast_append _ l hmem
      have hstep := paso_cond_clamp V dotm ACH k_cond dt rho_sat rho_out modo
        (((i : α) + 1) * dt) s
        (perdida_cond_of_lt V k_cond dt rho_sat modo hmodo s.rho_v hlt)
      have hinv : (paso V dotm ACH k_cond dt rho_sat rho_out modo (((i : α) + 1) * dt) s).rho_v
          ∈ (paso V dotm ACH k_cond dt rho_sat rho_out modo (((i : α) + 1) * dt) s).rhos := by
        rw [paso_rhos]
        exact List.mem_append_right _ (List.mem_singleton.2 rfl)
      have hrec := ih (i + 1)
        (paso V dotm ACH k_cond dt rho_sat rho_out modo (((i : α) + 1) * dt) s) hinv hbelow
      linarith

/-- With the humidifier off (`dotm = 0`), non-negative coefficients,
exterior density at most `M` and the explicit-Euler stability bound
`ACH * dt ≤ 60`, the post-step density never exceeds the bound `M`. -/
lemma nuevo_rho_zero_dotm_le (hV : 0 < V) (hdt : 0 ≤ dt) (hACH : 0 ≤ ACH)
    (hk : 0 ≤ k_cond) (M : α) (hM0 : 0 ≤ M) (hout : rho_out ≤ M)
    (hstab : ACH * dt ≤ 60) (rho_v : α) (hrv : rho_v ≤ M) :
    nuevo_rho V 0 ACH k_cond dt rho_sat rho_out modo rho_v ≤ M := by
  unfold nuevo_rho
  apply max_le hM0
  rw [div_le_iff hV]
  unfold nueva_masa perdida_vent
  have hpc := perdida_cond_nonneg V k_cond dt rho_sat modo hV.le hk hdt rho_v
  nlinarith [mul_nonneg (mul_nonneg (sub_nonneg.2 hstab) (sub_nonneg.2 hrv)) hV.le,
    mul_nonneg (mul_nonneg (mul_nonneg hACH hdt) (sub_nonneg.2 hout)) hV.le]

/-- Under the hypotheses of `nuevo_rho_zero_dotm_le`, if every density
at or below the bound `M` stays strictly below the target, the loop
never arrives. -/
lemma bucle_never (hV : 0 < V) (hdt : 0 ≤ dt) (hACH : 0 ≤ ACH) (hk : 0 ≤ k_cond)
    (M : α) (hM0 : 0 ≤ M) (hMobj : M < rho_objetivo)
    (hout : rho_out ≤ M) (hstab : ACH * dt ≤ 60) :
    ∀ (n i : ℕ) (s : SimState α), s.rho_v ≤ M →
      (bucle V 0 ACH k_cond dt rho_sat rho_out modo rho_objetivo n i s).2 = none := by
  intro n
  induction n with
  | zero => intro i s _; simp [bucle]
  | succ n ih =>
    intro i s hM
    have hle : (paso V 0 ACH k_cond dt rho_sat rho_out modo (((i : α) + 1) * dt) s).rho_v ≤ M := by
      rw [paso_rho_v]
      exact (min_le_right _ _).trans
        (nuevo_rho_zero_dotm_le V ACH k_cond dt rho_sat rho_out modo hV hdt hACH hk M hM0 hout
          hstab s.rho_v hM)
    rw [bucle, if_neg (not_le.2 (lt_of_le_of_lt hle hMobj))]
    exact ih (i + 1) _ hle

/-- Any time the loop reports was produced by some step `j ≥ i` and is
the stamp `(j+1)*dt` of that step. -/
lemma bucle_some_t :
    ∀ (n i : ℕ) (s : SimState α) (x : α),
      (bucle V dotm ACH k_cond dt rho_sat rho_out modo rho_objetivo n i s).2 = some x →
      ∃ j : ℕ, i ≤ j ∧ x = ((j : α) + 1) * dt := by
  intro n
  induction n with
  | zero => intro i s x hx; simp [bucle] at hx
  | succ n ih =>
    intro i s x hx
    rw [bucle] at hx
    by_cases h : (paso V dotm ACH k_cond dt rho_sat rho_out modo (((i : α) + 1) * dt) s).rho_v
        ≥ rho_objetivo
    · rw [if_pos h] at hx
      refine ⟨i, le_refl i, ?_⟩
      have : some (((i : α) + 1) * dt) = some x := hx
      exact (Option.some.inj this).symm
    · rw [if_neg h] at hx
      obtain ⟨j, hij, hj⟩ := ih (i + 1) _ x hx
      exact ⟨j, (Nat.le_succ i).trans hij, hj⟩

/-- The per-step condensation loss is the same for every mode string
other than `'fijo'`: only the `else` branch of lines 125-129 runs. -/
lemma perdida_cond_modo (hmodo : modo ≠ "fijo") (rho_v : α) :
    perdida_cond V k_cond dt rho_sat modo rho_v
      = perdida_cond V k_cond dt rho_sat "proporcional" rho_v := by
  unfold perdida_cond
  rw [if_neg hmodo, if_neg proporcional_ne_fijo]

/-- The pre-clamp density is mode-independent away from `'fijo'`. -/
lemma nuevo_rho_modo (hmodo : modo ≠ "fijo") (rho_v : α) :
    nuevo_rho V dotm ACH k_cond dt rho_sat rho_out modo rho_v
      = nuevo_rho V dotm ACH k_cond dt rho_sat rho_out "proporcional" rho_v := by
  unfold nuevo_rho nueva_masa
  rw [perdida_cond_modo V k_cond dt rho_sat modo hmodo]

/-- A whole step is mode-independent away from `'fijo'`. -/
lemma paso_modo (hmodo : modo ≠ "fijo") :
    paso V dotm ACH k_cond dt rho_sat rho_out modo t s
      = paso V dotm ACH k_cond dt rho_sat rho_out "proporcional" t s := by
  unfold paso
  rw [nuevo_rho_modo V dotm ACH k_cond dt rho_sat rho_out modo hmodo,
    perdida_cond_modo V k_cond dt rho_sat modo hmodo]

/-- The whole loop is mode-independent away from `'fijo'`. -/
lemma bucle_modo (hmodo : modo ≠ "fijo") :
    ∀ (n i : ℕ) (s : SimState α),
      bucle V dotm ACH k_cond dt rho_sat rho_out modo rho_objetivo n i s
        = bucle V dotm ACH k_cond dt rho_sat rho_out "proporcional" rho_objetivo n i s := by
  intro n
  induction n with
  | zero => intro i s; simp [bucle]
  | succ n ih =>
    intro i s
    simp only [bucle]
    rw [paso_modo V dotm ACH k_cond dt rho_sat rho_out modo (((i : α) + 1) * dt) s hmodo,
      ih (i + 1)]

end Integrador

/-- The Magnus saturation pressure is strictly positive at every
temperature. -/
lemma presion_saturacion_pos (T_c : ℝ) : 0 < presion_saturacion T_c :=
  mul_pos (by norm_num) (Real.exp_pos _)

/-- Above absolute zero, the Magnus saturation density is strictly
positive. -/
lemma rho_saturacion_pos {T_c : ℝ} (hT : -273.15 < T_c) :
    0 < rho_saturacion T_c := by
  unfold rho_saturacion
  apply div_pos (mul_pos (by norm_num) (presion_saturacion_pos T_c))
  linarith

/-- Core comparison behind the monotonicity of the Magnus density on
`[0, 40]`: the exponential factor grows faster than the Kelvin
denominator. -/
lemma magnus_core {T1 T2 : ℝ} (h1 : 0 ≤ T1) (h12 : T1 < T2) (h2 : T2 ≤ 40) :
    Real.exp ((17.62 * T1) / (243.12 + T1)) * (T2 + 273.15)
      < Real.exp ((17.62 * T2) / (243.12 + T2)) * (T1 + 273.15) := by
  have hd1 : (0:ℝ) < 243.12 + T1 := by linarith
  have hd2 : (0:ℝ) < 243.12 + T2 := by linarith
  have hD1 : (0:ℝ) < T1 + 273.15 := by linarith
  have hD2 : (0:ℝ) < T2 + 273.15 := by linarith
  have hdelta : (17.62 * T2) / (243.12 + T2) - (17.62 * T1) / (243.12 + T1)
      = 17.62 * 243.12 * (T2 - T1) / ((243.12 + T1) * (243.12 + T2)) := by
    field_simp
    ring
  have hdeltapos : 0 < (17.62 * T2) / (243.12 + T2) - (17.62 * T1) / (243.12 + T1) := by
    rw [hdelta]
    exact div_pos (mul_pos (by norm_num) (by linarith)) (mul_pos hd1 hd2)
  have hkey : (243.12 + T1) * (243.12 + T2) < 17.62 * 243.12 * (T1 + 273.15) := by
    nlinarith
  have hgt : (T2 - T1) / (T1 + 273.15)
      < (17.62 * T2) / (243.12 + T2) - (17.62 * T1) / (243.12 + T1) := by
    rw [hdelta, div_lt_div_iff hD1 (mul_pos hd1 hd2)]
    nlinarith [mul_lt_mul_of_pos_left hkey (sub_pos.2 h12)]
  have hexp : (T2 + 273.15) / (T1 + 273.15)
      < Real.exp ((17.62 * T2) / (243.12 + T2) - (17.62 * T1) / (243.12 + T1)) := by
    have h1e := Real.add_one_lt_exp (ne_of_gt hdeltapos)
    have heq : (T2 + 273.15) / (T1 + 273.15) = (T2 - T1) / (T1 + 273.15) + 1 := by
      field_simp
      ring
    rw [heq]
    linarith
  have hE : Real.exp ((17.62 * T2) / (243.12 + T2))
      = Real.exp ((17.62 * T1) / (243.12 + T1))
        * Real.exp ((17.62 * T2) / (243.12 + T2) - (17.62 * T1) / (243.12 + T1)) := by
    rw [← Real.exp_add]
    ring_nf
  have hmul : Real.exp ((17.62 * T1) / (243.12 + T1)) * ((T2 + 273.15) / (T1 + 273.15))
      < Real.exp ((17.62 * T2) / (243.12 + T2)) := by
    rw [hE]
    exact mul_lt_mul_of_pos_left hexp (Real.exp_pos _)
  have hscale := mul_lt_mul_of_pos_right hmul hD1
  have hside : Real.exp ((17.62 * T1) / (243.12 + T1)) * ((T2 + 273.15) / (T1 + 273.15))
      * (T1 + 273.15) = Real.exp ((17.62 * T1) / (243.12 + T1)) * (T2 + 273.15) := by
    field_simp
  rw [hside] at hscale
  linarith

/-- Strict monotonicity of the Magnus saturation density on `[0, 40]`. -/
lemma rho_saturacion_strictMonoOn {T1 T2 : ℝ} (h1 : 0 ≤ T1) (h12 : T1 < T2)
    (h2 : T2 ≤ 40) : rho_saturacion T1 < rho_saturacion T2 := by
  have hD1 : (0:ℝ) < T1 + 273.15 := by linarith
  have hD2 : (0:ℝ) < T2 + 273.15 := by linarith
  unfold rho_saturacion presion_saturacion
  rw [div_lt_div_iff hD1 hD2]
  nlinarith [magnus_core h1 h12 h2]

/-! The claim theorems. -/

/-- C9: for temperatures in the room range `[0, 40]` °C the Magnus
saturation density `rho_saturacion` is strictly positive, and it is
strictly monotone there: `T1 < T2` implies
`rho_saturacion T1 < rho_saturacion T2`. -/
theorem spec_C9_saturacion_positiva_y_monotona
    (T T1 T2 : ℝ) (hT0 : 0 ≤ T) (hT40 : T ≤ 40)
    (h1 : 0 ≤ T1) (h12 : T1 < T2) (h2 : T2 ≤ 40) :
    0 < rho_saturacion T ∧ rho_saturacion T1 < rho_saturacion T2 :=
  ⟨rho_saturacion_pos (by linarith), rho_saturacion_strictMonoOn h1 h12 h2⟩

/-- Witness for C9 at the concrete temperatures 20, 10 and 30 °C. -/
theorem spec_C9_witness :
    0 < rho_saturacion 20 ∧ rho_saturacion 10 < rho_saturacion 30 :=
  spec_C9_saturacion_positiva_y_monotona 20 10 30 (by norm_num) (by norm_num)
    (by norm_num) (by norm_num) (by norm_num)

/-- C1: for every valid configuration (humidities in `[0, 100]`,
positive volume and time step, non-negative injection rate, air-change
rate and condensation coefficient, temperature above absolute zero),
every sample recorded in the density series — the initial one
included — lies in `[0, rho_saturacion T]`: the `max(0, ...)` floor and
the saturation clamp keep every recorded state within these bounds. -/
theorem spec_C1_samples_in_bounds
    (V dotm T HR0 HR_out ACH k_cond : ℝ) (modo_cond : String)
    (dt HR_objetivo tiempo_max : ℝ)
    (hT : -273.15 < T)
    (hHR0 : 0 ≤ HR0) (hHR0c : HR0 ≤ 100)
    (hHRout : 0 ≤ HR_out) (hHRoutc : HR_out ≤ 100)
    (hV : 0 < V) (hdt : 0 < dt) (hdotm : 0 ≤ dotm) (hACH : 0 ≤ ACH)
    (hk : 0 ≤ k_cond) :
    ∀ x ∈ (simular_relleno_T V dotm T HR0 HR_out ACH k_cond modo_cond dt
        HR_objetivo tiempo_max).rhos,
      0 ≤ x ∧ x ≤ rho_saturacion T := by
  have hsat : 0 ≤ rho_saturacion T := (rho_saturacion_pos hT).le
  have hinit : ∀ x ∈ [(HR0 / 100) * rho_saturacion T],
      0 ≤ x ∧ x ≤ rho_saturacion T := by
    intro x hx
    rw [List.mem_singleton] at hx
    subst hx
    constructor
    · exact mul_nonneg (div_nonneg hHR0 (by norm_num)) hsat
    · exact mul_le_of_le_one_left hsat (by linarith)
  simp only [simular_relleno_T, simular_relleno]
  exact bucle_rhos_mem V dotm ACH k_cond dt (rho_saturacion T)
    ((HR_out / 100) * rho_saturacion T) modo_cond
    ((HR_objetivo / 100) * rho_saturacion T) hsat _ 0 _ hinit

/-- Witness for C1: at a concrete valid configuration, the initial
recorded sample (which is a member of the series) obeys both bounds. -/
theorem spec_C1_witness :
    0 ≤ (30 / 100 : ℝ) * rho_saturacion 20
      ∧ (30 / 100 : ℝ) * rho_saturacion 20 ≤ rho_saturacion 20 := by
  have hmem : (30 / 100 : ℝ) * rho_saturacion 20
      ∈ (simular_relleno_T 1 1 20 30 40 1 1 "fijo" 1 100 5).rhos := by
    simp only [simular_relleno_T, simular_relleno]
    obtain ⟨l, hl⟩ := bucle_rhos_append 1 1 1 1 1 (rho_saturacion 20)
      ((40 / 100) * rho_saturacion 20) "fijo" ((100 / 100) * rho_saturacion 20)
      ((⌊(5:ℝ) / 1⌋).toNat) 0
      ⟨(30 / 100) * rho_saturacion 20, [0], [(30 / 100) * rho_saturacion 20], 0, 0, 0⟩
    rw [hl]
    exact List.mem_append_left _ (List.mem_singleton.2 rfl)
  exact spec_C1_samples_in_bounds 1 1 20 30 40 1 1 "fijo" 1 100 5 (by norm_num)
    (by norm_num) (by norm_num) (by norm_num) (by norm_num) (by norm_num)
    (by norm_num) (by norm_num) (by norm_num) (by norm_num)
    ((30 / 100 : ℝ) * rho_saturacion 20) hmem

/-- C2: at every step the pre-clamp mass balance is exact — with the
source's FIXED-mode (`'fijo'`) condensation loss
`min(k_cond*dt, max(0, current_mass))` and the ventilation loss
`(ACH*V/60)*(rho_v - rho_out)*dt` — the new mass is
`current_mass + injected_mass - ventilation_loss - condensation_loss`,
the new density is `max(0, new_mass / V)` — both identities hold at
every step, unconditionally — and, whenever `ACH`, `V` and `dt` are
positive, the ventilation loss is negative (a net gain) when the
exterior density exceeds the interior density. -/
theorem spec_C2_balance_de_masa {α : Type*} [LinearOrderedField α]
    (V dotm ACH k_cond dt rho_sat rho_out rho_v : α) :
    nueva_masa V dotm ACH k_cond dt rho_sat rho_out "fijo" rho_v
        = rho_v * V + dotm * dt - (ACH * V / 60) * (rho_v - rho_out) * dt
          - min (k_cond * dt) (max 0 (rho_v * V))
      ∧ nuevo_rho V dotm ACH k_cond dt rho_sat rho_out "fijo" rho_v
        = max 0 (nueva_masa V dotm ACH k_cond dt rho_sat rho_out "fijo" rho_v / V)
      ∧ (0 < ACH → 0 < V → 0 < dt → rho_v < rho_out →
          perdida_vent V ACH dt rho_out rho_v < 0) := by
  refine ⟨?_, rfl, fun hACH hV hdt hlt => ?_⟩
  · unfold nueva_masa perdida_vent perdida_cond
    rw [if_pos rfl]
  · unfold perdida_vent
    exact mul_neg_of_neg_of_pos
      (mul_neg_of_pos_of_neg (div_pos (mul_pos hACH hV) (by norm_num)) (sub_neg.2 hlt)) hdt

/-- Witness for C2 at a concrete configuration with the exterior
density above the interior one. -/
theorem spec_C2_witness :
    nueva_masa (α := ℚ) 1 2 1 3 1 4 1 "fijo" 0
        = 0 * 1 + 2 * 1 - (1 * 1 / 60) * (0 - 1) * 1 - min (3 * 1) (max 0 (0 * 1))
      ∧ nuevo_rho (α := ℚ) 1 2 1 3 1 4 1 "fijo" 0
        = max 0 (nueva_masa (α := ℚ) 1 2 1 3 1 4 1 "fijo" 0 / 1)
      ∧ perdida_vent (α := ℚ) 1 1 1 1 0 < 0 :=
  ⟨(spec_C2_balance_de_masa (α := ℚ) 1 2 1 3 1 4 1 0).1,
    (spec_C2_balance_de_masa (α := ℚ) 1 2 1 3 1 4 1 0).2.1,
    (spec_C2_balance_de_masa (α := ℚ) 1 2 1 3 1 4 1 0).2.2 (by norm_num) (by norm_num)
      (by norm_num) (by norm_num)⟩

/-- C10: every condensation-mode string other than the exact `'fijo'`
(including any misspelled or unrecognized one) silently runs the
PROPORTIONAL branch: the whole simulation result coincides with the one
for mode `'proporcional'`, and no error is raised (the function is
total). -/
theorem spec_C10_modo_desconocido {α : Type*} [LinearOrderedField α] [FloorRing α]
    (V dotm rho_sat HR0 HR_out ACH k_cond : α) (modo_cond : String)
    (dt HR_objetivo tiempo_max : α) (hmodo : modo_cond ≠ "fijo") :
    simular_relleno V dotm rho_sat HR0 HR_out ACH k_cond modo_cond dt HR_objetivo tiempo_max
      = simular_relleno V dotm rho_sat HR0 HR_out ACH k_cond "proporcional" dt HR_objetivo
          tiempo_max := by
  simp only [simular_relleno]
  rw [bucle_modo V dotm ACH k_cond dt rho_sat ((HR_out / 100) * rho_sat) modo_cond
    ((HR_objetivo / 100) * rho_sat) hmodo]

/-- Witness for C10 at the unrecognized mode string `'cualquiera'`. -/
theorem spec_C10_witness :
    simular_relleno (α := ℚ) 1 1 100 0 0 0 1 "cualquiera" 1 100 2
      = simular_relleno (α := ℚ) 1 1 100 0 0 0 1 "proporcional" 1 100 2 :=
  spec_C10_modo_desconocido 1 1 100 0 0 0 1 "cualquiera" 1 100 2 (by decide)

/-- C7: the step loop runs at most `floor(tiempo_max / dt)` steps;
`t_obj` is `none` exactly when no post-step sample reached the target
density, and in that case the full series — one sample and one time
stamp per step plus the initial ones — is returned. -/
theorem spec_C7_agotamiento_del_bucle {α : Type*} [LinearOrderedField α] [FloorRing α]
    (V dotm rho_sat HR0 HR_out ACH k_cond : α) (modo_cond : String)
    (dt HR_objetivo tiempo_max : α) :
    ((simular_relleno V dotm rho_sat HR0 HR_out ACH k_cond modo_cond dt HR_objetivo
          tiempo_max).t_obj = none
        ↔ ∀ x ∈ (simular_relleno V dotm rho_sat HR0 HR_out ACH k_cond modo_cond dt
            HR_objetivo tiempo_max).rhos.drop 1,
            x < (HR_objetivo / 100) * rho_sat)
      ∧ ((simular_relleno V dotm rho_sat HR0 HR_out ACH k_cond modo_cond dt HR_objetivo
            tiempo_max).t_obj = none →
          (simular_relleno V dotm rho_sat HR0 HR_out ACH k_cond modo_cond dt HR_objetivo
              tiempo_max).rhos.length = (⌊tiempo_max / dt⌋).toNat + 1
            ∧ (simular_relleno V dotm rho_sat HR0 HR_out ACH k_cond modo_cond dt HR_objetivo
                tiempo_max).tiempos.length = (⌊tiempo_max / dt⌋).toNat + 1)
      ∧ (simular_relleno V dotm rho_sat HR0 HR_out ACH k_cond modo_cond dt HR_objetivo
          tiempo_max).rhos.length ≤ (⌊tiempo_max / dt⌋).toNat + 1 := by
  simp only [simular_relleno]
  refine ⟨⟨fun hnone x hx => ?_, fun hlt => ?_⟩, fun hnone => ?_, ?_⟩
  · exact bucle_none_lt V dotm ACH k_cond dt rho_sat ((HR_out / 100) * rho_sat) modo_cond
      ((HR_objetivo / 100) * rho_sat) _ 0 _ hnone x hx
  · exact bucle_lt_none V dotm ACH k_cond dt rho_sat ((HR_out / 100) * rho_sat) modo_cond
      ((HR_objetivo / 100) * rho_sat) _ 0 _ hlt
  · obtain ⟨h1, h2⟩ := bucle_none_length V dotm ACH k_cond dt rho_sat
      ((HR_out / 100) * rho_sat) modo_cond ((HR_objetivo / 100) * rho_sat) _ 0 _ hnone
    constructor
    · rw [h1]
      simp only [List.length_singleton]
      omega
    · rw [h2]
      simp only [List.length_singleton]
      omega
  · have h := bucle_rhos_length_le V dotm ACH k_cond dt rho_sat ((HR_out / 100) * rho_sat)
      modo_cond ((HR_objetivo / 100) * rho_sat) ((⌊tiempo_max / dt⌋).toNat) 0
      ⟨(HR0 / 100) * rho_sat, [0], [(HR0 / 100) * rho_sat], 0, 0, 0⟩
    simp only [List.length_singleton] at h
    omega

/-- C8: under the validity sign conditions, the injected-mass and
condensed-mass accumulators are non-decreasing both across one step and
across the whole loop. -/
theorem spec_C8_acumuladores_monotonos {α : Type*} [LinearOrderedField α]
    (V dotm ACH k_cond dt rho_sat rho_out : α) (modo_cond : String)
    (rho_objetivo t : α) (s : SimState α) (n i : ℕ)
    (hV : 0 ≤ V) (hdotm : 0 ≤ dotm) (hk : 0 ≤ k_cond) (hdt : 0 ≤ dt) :
    s.masa_inyectada
        ≤ (paso V dotm ACH k_cond dt rho_sat rho_out modo_cond t s).masa_inyectada
      ∧ s.masa_condensada
        ≤ (paso V dotm ACH k_cond dt rho_sat rho_out modo_cond t s).masa_condensada
      ∧ s.masa_inyectada
        ≤ (bucle V dotm ACH k_cond dt rho_sat rho_out modo_cond rho_objetivo n i s).1.masa_inyectada
      ∧ s.masa_condensada
        ≤ (bucle V dotm ACH k_cond dt rho_sat rho_out modo_cond rho_objetivo n i s).1.masa_condensada := by
  obtain ⟨h3, h4⟩ := bucle_masas_mono V dotm ACH k_cond dt rho_sat rho_out modo_cond
    rho_objetivo hV hdotm hk hdt n i s
  refine ⟨?_, paso_masa_condensada_mono V dotm ACH k_cond dt rho_sat rho_out modo_cond t s
    hV hk hdt, h3, h4⟩
  rw [paso_masa_inyectada]
  have := mul_nonneg hdotm hdt
  linarith

/-- Witness for C8 at a concrete configuration and state. -/
theorem spec_C8_witness :
    (SimState.mk (0:ℚ) [0] [0] 0 0 0).masa_inyectada
        ≤ (paso (α := ℚ) 1 1 1 1 1 100 0 "fijo" 1 (SimState.mk 0 [0] [0] 0 0 0)).masa_inyectada
      ∧ (SimState.mk (0:ℚ) [0] [0] 0 0 0).masa_condensada
        ≤ (paso (α := ℚ) 1 1 1 1 1 100 0 "fijo" 1 (SimState.mk 0 [0] [0] 0 0 0)).masa_condensada
      ∧ (SimState.mk (0:ℚ) [0] [0] 0 0 0).masa_inyectada
        ≤ (bucle (α := ℚ) 1 1 1 1 1 100 0 "fijo" 100 2 0 (SimState.mk 0 [0] [0] 0 0 0)).1.masa_inyectada
      ∧ (SimState.mk (0:ℚ) [0] [0] 0 0 0).masa_condensada
        ≤ (bucle (α := ℚ) 1 1 1 1 1 100 0 "fijo" 100 2 0 (SimState.mk 0 [0] [0] 0 0 0)).1.masa_condensada :=
  spec_C8_acumuladores_monotonos 1 1 1 1 1 100 0 "fijo" 100 1 (SimState.mk 0 [0] [0] 0 0 0)
    2 0 (by norm_num) (by norm_num) (by norm_num) (by norm_num)

/-- C3: in PROPORTIONAL mode the per-step condensation loss is
`max(0, rho_v - rho_sat) * V * k_cond * dt` evaluated at the pre-step
density, and in a run whose density stays strictly below saturation at
the start of every step the cumulative condensed mass at termination is
exactly the clamp-induced contribution (`masa_clamp`), i.e. zero apart
from it. -/
theorem spec_C3_proporcional_bajo_saturacion {α : Type*} [LinearOrderedField α]
    [FloorRing α]
    (V dotm rho_sat HR0 HR_out ACH k_cond dt HR_objetivo tiempo_max rho_v : α)
    (hbelow : ∀ x ∈ (simular_relleno V dotm rho_sat HR0 HR_out ACH k_cond "proporcional"
        dt HR_objetivo tiempo_max).rhos.dropLast, x < rho_sat) :
    perdida_cond V k_cond dt rho_sat "proporcional" rho_v
        = max 0 (rho_v - rho_sat) * V * k_cond * dt
      ∧ (simular_relleno V dotm rho_sat HR0 HR_out ACH k_cond "proporcional" dt
          HR_objetivo tiempo_max).masa_condensada
        = (simular_relleno V dotm rho_sat HR0 HR_out ACH k_cond "proporcional" dt
            HR_objetivo tiempo_max).masa_clamp := by
  constructor
  · unfold perdida_cond
    rw [if_neg proporcional_ne_fijo]
  · simp only [simular_relleno] at hbelow ⊢
    have h := bucle_cond_eq_clamp V dotm ACH k_cond dt rho_sat ((HR_out / 100) * rho_sat)
      "proporcional" ((HR_objetivo / 100) * rho_sat) proporcional_ne_fijo
      ((⌊tiempo_max / dt⌋).toNat) 0
      ⟨(HR0 / 100) * rho_sat, [0], [(HR0 / 100) * rho_sat], 0, 0, 0⟩
      (List.mem_singleton.2 rfl) hbelow
    simpa using h

/-- Witness for C3: a short PROPORTIONAL run that stays below
saturation records zero condensed mass beyond the (empty) clamp
contribution. -/
theorem spec_C3_witness :
    (∀ x ∈ (simular_relleno (α := ℚ) 1 1 100 0 0 0 1 "proporcional" 1 100 2).rhos.dropLast,
        x < 100)
      ∧ (simular_relleno (α := ℚ) 1 1 100 0 0 0 1 "proporcional" 1 100 2).masa_condensada
        = (simular_relleno (α := ℚ) 1 1 100 0 0 0 1 "proporcional" 1 100 2).masa_clamp := by
  have hbelow : ∀ x ∈ (simular_relleno (α := ℚ) 1 1 100 0 0 0 1 "proporcional" 1 100
      2).rhos.dropLast, x < 100 := by
    have hr : (simular_relleno (α := ℚ) 1 1 100 0 0 0 1 "proporcional" 1 100 2).rhos
        = [0, 1, 2] := by
      norm_num [simular_relleno, bucle, paso, nuevo_rho, nueva_masa, perdida_vent,
        perdida_cond, proporcional_ne_fijo, max_def, min_def]
    rw [hr]
    intro x hx
    fin_cases hx <;> norm_num
  exact ⟨hbelow,
    (spec_C3_proporcional_bajo_saturacion 1 1 100 0 0 0 1 1 100 2 5 hbelow).2⟩

/-- Counterexample to C4 as stated: a configuration whose target is
already met at the initial sample (`HR_objetivo = 40 ≤ 50 = HR0`)
reports `time_to_target = 1` (the first step's stamp), not `0`. -/
theorem spec_C4_counterexample :
    (simular_relleno (α := ℚ) 1 0 100 50 0 0 0 "fijo" 1 40 1).t_obj = some 1
      ∧ (1 : ℚ) ≠ 0 := by
  constructor
  · norm_num [simular_relleno, bucle, paso, nuevo_rho, nueva_masa, perdida_vent,
      perdida_cond, max_def, min_def]
  · norm_num

/-- C4 amended: the arrival check only examines post-step samples, so a
reported `time_to_target` is always at least `dt` — never `0`, even
when the target is already met at the initial sample — and it equals
`dt` exactly when (if and only if) the first step's updated (clamped)
density still meets the target. -/
theorem spec_C4_amended {α : Type*} [LinearOrderedField α] [FloorRing α]
    (V dotm rho_sat HR0 HR_out ACH k_cond : α) (modo_cond : String)
    (dt HR_objetivo tiempo_max x : α)
    (hle : HR_objetivo ≤ HR0) (hdt : 0 < dt) (hmax : dt ≤ tiempo_max) :
    ((simular_relleno V dotm rho_sat HR0 HR_out ACH k_cond modo_cond dt HR_objetivo
          tiempo_max).t_obj = some x → dt ≤ x)
      ∧ ((simular_relleno V dotm rho_sat HR0 HR_out ACH k_cond modo_cond dt HR_objetivo
            tiempo_max).t_obj = some dt
          ↔ (HR_objetivo / 100) * rho_sat
            ≤ min rho_sat (nuevo_rho V dotm ACH k_cond dt rho_sat
              ((HR_out / 100) * rho_sat) modo_cond ((HR0 / 100) * rho_sat))) := by
  constructor
  · intro hsome
    simp only [simular_relleno] at hsome
    obtain ⟨j, _, hj⟩ := bucle_some_t V dotm ACH k_cond dt rho_sat
      ((HR_out / 100) * rho_sat) modo_cond ((HR_objetivo / 100) * rho_sat) _ 0 _ x hsome
    have hj1 : (1 : α) ≤ (j : α) + 1 := by
      have := Nat.cast_nonneg (α := α) j
      linarith
    calc dt = 1 * dt := (one_mul dt).symm
      _ ≤ ((j : α) + 1) * dt := mul_le_mul_of_nonneg_right hj1 hdt.le
      _ = x := hj.symm
  constructor
  · intro hsome
    simp only [simular_relleno] at hsome
    rcases Nat.eq_zero_or_pos ((⌊tiempo_max / dt⌋).toNat) with hz | hp
    · rw [hz] at hsome
      simp [bucle] at hsome
    · obtain ⟨n, hn⟩ : ∃ n, (⌊tiempo_max / dt⌋).toNat = n + 1 :=
        ⟨(⌊tiempo_max / dt⌋).toNat - 1, by omega⟩
      rw [hn, bucle] at hsome
      split_ifs at hsome with h
      · rw [paso_rho_v] at h
        exact h
      · exfalso
        obtain ⟨j, hj1, hj2⟩ := bucle_some_t V dotm ACH k_cond dt rho_sat
          ((HR_out / 100) * rho_sat) modo_cond ((HR_objetivo / 100) * rho_sat) n 1 _ dt hsome
        have hjc : (1 : α) ≤ (j : α) := by exact_mod_cast hj1
        have h2 : 2 * dt ≤ ((j : α) + 1) * dt :=
          mul_le_mul_of_nonneg_right (by linarith) hdt.le
        linarith [hj2]
  · intro hfirst
    simp only [simular_relleno]
    have hp : 1 ≤ (⌊tiempo_max / dt⌋).toNat := by
      have h1 : (1 : α) ≤ tiempo_max / dt := (one_le_div hdt).2 hmax
      have h2 : (1 : ℤ) ≤ ⌊tiempo_max / dt⌋ := by
        rw [Int.le_floor]
        push_cast
        exact h1
      omega
    obtain ⟨n, hn⟩ : ∃ n, (⌊tiempo_max / dt⌋).toNat = n + 1 :=
      ⟨(⌊tiempo_max / dt⌋).toNat - 1, by omega⟩
    rw [hn, bucle]
    rw [if_pos]
    · simp
    · rw [paso_rho_v]
      exact hfirst

/-- Witness for C4 amended: at a concrete configuration with
`target ≤ initial` whose first step keeps the target met, the reported
time is `dt = 1`. -/
theorem spec_C4_witness :
    (40 / 100 : ℚ) * 100
        ≤ min 100 (nuevo_rho (α := ℚ) 1 0 0 0 1 100 ((0 / 100) * 100) "fijo"
          ((50 / 100) * 100))
      ∧ (simular_relleno (α := ℚ) 1 0 100 50 0 0 0 "fijo" 1 40 1).t_obj = some 1 := by
  have hfirst : (40 / 100 : ℚ) * 100
      ≤ min 100 (nuevo_rho (α := ℚ) 1 0 0 0 1 100 ((0 / 100) * 100) "fijo"
        ((50 / 100) * 100)) := by
    norm_num [nuevo_rho, nueva_masa, perdida_vent, perdida_cond, max_def, min_def]
  exact ⟨hfirst,
    (spec_C4_amended 1 0 100 50 0 0 0 "fijo" 1 40 1 1 (by norm_num) (by norm_num)
      (by norm_num)).2.mpr hfirst⟩

/-- The invalid mode string used in the C5 theorems is not `'fijo'`. -/
lemma modo_invalido_ne_fijo : ("modo_invalido" : String) ≠ "fijo" := by decide

/-- Counterexample to C5 as stated: a configuration with the initial
relative humidity 150 (outside `[0, 100]`) is not rejected — the step
loop runs, records the out-of-range initial sample `150`, executes a
step (clamping to saturation `100`), and returns normally. -/
theorem spec_C5_counterexample :
    (simular_relleno (α := ℚ) 1 0 100 150 0 0 0 "fijo" 1 200 1).rhos = [150, 100]
      ∧ (simular_relleno (α := ℚ) 1 0 100 150 0 0 0 "fijo" 1 200 1).t_obj = none := by
  constructor <;>
    norm_num [simular_relleno, bucle, paso, nuevo_rho, nueva_masa, perdida_vent,
      perdida_cond, max_def, min_def]

/-- C5 amended: no configuration validation exists — an out-of-range
humidity together with an unrecognized condensation-mode string is
accepted silently, the unrecognized mode behaves exactly as
PROPORTIONAL, and the loop steps normally (two samples recorded for a
one-step horizon) instead of failing fast. -/
theorem spec_C5_amended :
    simular_relleno (α := ℚ) 1 0 100 150 0 0 0 "modo_invalido" 1 200 1
        = simular_relleno (α := ℚ) 1 0 100 150 0 0 0 "proporcional" 1 200 1
      ∧ (simular_relleno (α := ℚ) 1 0 100 150 0 0 0 "modo_invalido" 1 200 1).rhos.length
        = 2 := by
  constructor
  · simp only [simular_relleno]
    rw [bucle_modo 1 0 0 0 1 100 ((0 / 100) * 100) "modo_invalido" ((200 / 100) * 100)
      modo_invalido_ne_fijo]
  · norm_num [simular_relleno, bucle, paso, nuevo_rho, nueva_masa, perdida_vent,
      perdida_cond, max_def, min_def, modo_invalido_ne_fijo]

/-- Counterexample to C6 as stated: with no injection (`dotm = 0`) and
a positive condensation coefficient, a target strictly above the
initial density is nevertheless reached, because ventilation against a
more humid exterior is a net gain: the run reports `t_obj = some 1`,
not `none`. -/
theorem spec_C6_counterexample :
    (simular_relleno (α := ℚ) 1 0 100 0 50 60 1 "fijo" 1 10 1).t_obj = some 1
      ∧ (simular_relleno (α := ℚ) 1 0 100 0 50 60 1 "fijo" 1 10 1).t_obj ≠ none := by
  have h : (simular_relleno (α := ℚ) 1 0 100 0 50 60 1 "fijo" 1 10 1).t_obj = some 1 := by
    norm_num [simular_relleno, bucle, paso, nuevo_rho, nueva_masa, perdida_vent,
      perdida_cond, max_def, min_def]
  refine ⟨h, ?_⟩
  rw [h]
  simp

/-- C6 amended: with no injection and a positive condensation
coefficient, a target strictly above the initial density is never
reached provided additionally the exterior humidity does not exceed the
initial humidity and the per-step ventilation fraction satisfies the
explicit-Euler stability bound `ACH * dt ≤ 60`. -/
theorem spec_C6_amended {α : Type*} [LinearOrderedField α] [FloorRing α]
    (V rho_sat HR0 HR_out ACH k_cond : α) (modo_cond : String)
    (dt HR_objetivo tiempo_max : α)
    (hV : 0 < V) (hdt : 0 < dt) (hACH : 0 ≤ ACH) (hk : 0 < k_cond)
    (hsat : 0 < rho_sat) (hHR0 : 0 ≤ HR0) (hout : HR_out ≤ HR0)
    (hobj : HR0 < HR_objetivo) (hstab : ACH * dt ≤ 60) :
    (simular_relleno V 0 rho_sat HR0 HR_out ACH k_cond modo_cond dt HR_objetivo
      tiempo_max).t_obj = none := by
  simp only [simular_relleno]
  refine bucle_never V ACH k_cond dt rho_sat ((HR_out / 100) * rho_sat) modo_cond
    ((HR_objetivo / 100) * rho_sat) hV hdt.le hACH hk.le ((HR0 / 100) * rho_sat)
    (mul_nonneg (div_nonneg hHR0 (by norm_num)) hsat.le) ?_ ?_ hstab _ 0 _ (le_refl _)
  · exact mul_lt_mul_of_pos_right (by linarith) hsat
  · exact mul_le_mul_of_nonneg_right (by linarith) hsat.le

/-- Witness for C6 amended at a concrete configuration: dry interior
start above the exterior humidity, no injection, stable step. -/
theorem spec_C6_witness :
    (simular_relleno (α := ℚ) 1 0 100 10 5 1 1 "fijo" 1 50 3).t_obj = none :=
  spec_C6_amended 1 100 10 5 1 1 "fijo" 1 50 3 (by norm_num) (by norm_num) (by norm_num)
    (by norm_num) (by norm_num) (by norm_num) (by norm_num) (by norm_num) (by norm_num)
